import Mathlib

/-!
# Verification of `inventory_system.py`

A shallow embedding of the Python module `src/inventory_system.py` — a small
JSON-backed inventory tracker — together with proofs of the specification's
claims about it.

Modelling conventions:
* A Python runtime value is a `PyVal`. Python's `bool` is a subclass of `int`,
  which the `isinstance` embeddings reflect.
* A Python `dict` used as an inventory is an insertion-ordered association
  list `Inventory := List (String × Int)`; assignment to an existing key
  updates the value in place (keeping the key's position), assignment to a
  fresh key appends at the end, exactly as CPython dicts behave.
* `print(..., file=sys.stderr)` is modelled by returning the list of messages
  emitted to the error channel; `datetime.now()` is an explicit `now`
  argument (the rendered timestamp string).
* The file system is a map from path to optional file content; a file either
  holds text that parses as JSON (recorded as the parsed value) or text that
  does not. I/O failure on `save_data` (`IOError`) is outside every claim and
  is not modelled: writes succeed.
* Python `repr`/`str` of values is modelled closely enough for the diagnostic
  messages the module interpolates (string-escaping corner cases of `repr`
  are not reproduced; no diagnostic in the module depends on them).
-/

/-- A Python runtime value, restricted to the shapes this module can
encounter: strings, integers, booleans, `None`, and JSON-decoded lists and
string-keyed dicts. -/
inductive PyVal : Type where
  | str (s : String)
  | int (n : Int)
  | bool (b : Bool)
  | none
  | list (xs : List PyVal)
  | dict (ps : List (String × PyVal))

/-- Python `isinstance(v, str)`. -/
def PyVal.isinstanceStr : PyVal → Bool
  | .str _ => true
  | _ => false

/-- Python `isinstance(v, int)`: `bool` is a subclass of `int`, so booleans
pass this check. -/
def PyVal.isinstanceInt : PyVal → Bool
  | .int _ => true
  | .bool _ => true
  | _ => false

/-- The integer value of a Python value for which `isinstance(v, int)` holds:
`True == 1`, `False == 0`. Other values (never reached behind the
`isinstance` guard) map to 0. -/
def PyVal.intVal : PyVal → Int
  | .int n => n
  | .bool b => if b then 1 else 0
  | _ => 0

mutual

/-- Python `repr(v)` for the values of this module (string escaping inside
`repr` of a `str` is not reproduced). -/
def PyVal.pyRepr : PyVal → String
  | .str s => "'" ++ s ++ "'"
  | .int n => toString n
  | .bool b => if b then "True" else "False"
  | .none => "None"
  | .list xs => "[" ++ String.intercalate ", " (pyReprList xs) ++ "]"
  | .dict ps => "\x7b" ++ String.intercalate ", " (pyReprEntries ps) ++ "\x7d"

/-- Python `repr` of each element of a Python list. -/
def pyReprList : List PyVal → List String
  | [] => []
  | x :: xs => x.pyRepr :: pyReprList xs

/-- Python `repr` of each `key: value` entry of a Python dict. -/
def pyReprEntries : List (String × PyVal) → List String
  | [] => []
  | (k, v) :: ps => ("'" ++ k ++ "': " ++ v.pyRepr) :: pyReprEntries ps

end

/-- Python `str(v)` (what an f-string interpolates): identity on strings,
`repr` otherwise. -/
def PyVal.pyStr : PyVal → String
  | .str s => s
  | v => v.pyRepr

/-- An in-memory inventory: a CPython dict from item name to integer
quantity, as an insertion-ordered association list with unique keys. -/
abbrev Inventory := List (String × Int)

/-- Python `d.get(k)` on a dict: the value stored at `k` (first matching entry),
if any. -/
def dictFind? : Inventory → String → Option Int
  | [], _ => Option.none
  | p :: t, k => if p.1 = k then Option.some p.2 else dictFind? t k

/-- Python `d.get(k, 0)`: the value stored at `k`, or `0` if absent. -/
def dictGetD (d : Inventory) (k : String) : Int :=
  (dictFind? d k).getD 0

/-- Python `d[k] = v` on a dict: updates the value in place if `k` is present
(keeping the key's position), otherwise appends the new entry at the end —
CPython's insertion-order semantics. -/
def dictSet : Inventory → String → Int → Inventory
  | [], k, v => [(k, v)]
  | p :: t, k, v => if p.1 = k then (k, v) :: t else p :: dictSet t k v

/-- Python `del d[k]` on a dict (total: removes every entry with key `k`; a
Python dict holds at most one). -/
def dictErase (d : Inventory) (k : String) : Inventory :=
  d.filter (fun p => p.1 ≠ k)

/-- The keys of a dict, in iteration order. -/
def dictKeys (d : Inventory) : List String := d.map Prod.fst

/-- The diagnostic emitted for an invalid item name, from
`add_item`/`remove_item`:
`f"Error: Item name '\x7bitem\x7d' is invalid. Must be a non-empty string."` -/
def itemErrMsg (item : PyVal) : String :=
  "Error: Item name '" ++ item.pyStr ++ "' is invalid. Must be a non-empty string."

/-- The diagnostic emitted for an invalid quantity, from
`add_item`/`remove_item`:
`f"Error: Quantity '\x7bqty\x7d' for item '\x7bitem\x7d' is invalid. Must be a positive integer."` -/
def qtyErrMsg (item qty : PyVal) : String :=
  "Error: Quantity '" ++ qty.pyStr ++ "' for item '" ++ item.pyStr ++
    "' is invalid. Must be a positive integer."

/-- The item validation of `add_item`/`remove_item`:
`isinstance(item, str) and item` (truthiness of a string is non-emptiness). -/
def validItem : PyVal → Bool
  | .str s => !(s == "")
  | _ => false

/-- The quantity validation of `add_item`/`remove_item`:
`isinstance(qty, int) and qty > 0`. -/
def validQty (qty : PyVal) : Bool :=
  qty.isinstanceInt && qty.intVal > 0

/-- The result of a mutation call: the inventory afterwards, the caller's log
list afterwards (`Option.none` when no log collector was supplied), and the
messages printed to `sys.stderr` during the call. -/
structure MutResult where
  stock : Inventory
  logs : Option (List String)
  stderr : List String
  deriving Repr, DecidableEq

/-- The function `add_item(stock_data, item, qty, logs=None)` from
`src/inventory_system.py`. `now` is the rendered `datetime.now()` timestamp.
When `logs is None` the code binds a fresh local list, so the caller observes
no log; this is modelled by `logs` staying `Option.none`. -/
def add_item (stock_data : Inventory) (item qty : PyVal)
    (logs : Option (List String)) (now : String) : MutResult :=
  if ¬ validItem item then
    ⟨stock_data, logs, [itemErrMsg item]⟩
  else if ¬ validQty qty then
    ⟨stock_data, logs, [qtyErrMsg item qty]⟩
  else
    match item with
    | .str s =>
        let newStock := dictSet stock_data s (dictGetD stock_data s + qty.intVal)
        let entry := now ++ ": Added " ++ qty.pyStr ++ " of " ++ s
        ⟨newStock, logs.map (fun l => l ++ [entry]), []⟩
    | _ => ⟨stock_data, logs, []⟩

/-- The function `remove_item(stock_data, item, qty)` from `src/inventory_system.py`.
Returns the inventory afterwards and the stderr messages. The `KeyError` on
an absent key is caught and silently ignored. -/
def remove_item (stock_data : Inventory) (item qty : PyVal) :
    Inventory × List String :=
  if ¬ validItem item then
    (stock_data, [itemErrMsg item])
  else if ¬ validQty qty then
    (stock_data, [qtyErrMsg item qty])
  else
    match item with
    | .str s =>
        match dictFind? stock_data s with
        | Option.none => (stock_data, [])
        | Option.some q =>
            let q' := q - qty.intVal
            if q' ≤ 0 then (dictErase stock_data s, [])
            else (dictSet stock_data s q', [])
    | _ => (stock_data, [])

/-- The function `get_qty(stock_data, item)` from `src/inventory_system.py`:
`stock_data.get(item, 0)`. -/
def get_qty (stock_data : Inventory) (item : String) : Int :=
  dictGetD stock_data item

/-- The function `check_low_items(stock_data, threshold=5)` from `src/inventory_system.py`:
`[item for item, qty in stock_data.items() if qty < threshold]`. -/
def check_low_items (stock_data : Inventory) (threshold : Int) : List String :=
  stock_data.filterMap (fun p => if p.2 < threshold then some p.1 else Option.none)

/-- The content of a file on disk, as far as this module can observe it:
either text that parses as JSON (recorded as the parsed Python value) or
text that raises `json.JSONDecodeError`. -/
inductive FileData : Type where
  | json (v : PyVal)
  | notJson (raw : String)

/-- The file system: a map from path to the content of the file there, or
`Option.none` when no file exists at that path. -/
def FS : Type := String → Option FileData

/-- The Python dict value corresponding to an `Inventory`
(each quantity as a Python `int`). -/
def pyDictOfInv (inv : Inventory) : PyVal :=
  .dict (inv.map (fun p => (p.1, .int p.2)))

/-- The function `load_data(file)` from `src/inventory_system.py`, run against file system
`fs`. Returns the value `json.load` produced (the parsed file content as-is),
the messages printed to `sys.stderr`, and the file system afterwards (the
function only reads). Missing file → `\x7b\x7d` with an `Info:` diagnostic;
undecodable content → `\x7b\x7d` with an `Error:` diagnostic. -/
def load_data (file : String) (fs : FS) : PyVal × List String × FS :=
  match fs file with
  | Option.none =>
      (.dict [], ["Info: '" ++ file ++ "' not found. Starting with empty inventory."], fs)
  | Option.some (.json v) => (v, [], fs)
  | Option.some (.notJson _) =>
      (.dict [],
        ["Error: Could not decode JSON from '" ++ file ++ "'. Starting with empty inventory."],
        fs)

/-- The function `save_data(stock_data, file)` from `src/inventory_system.py`, run against
file system `fs`: `json.dump(stock_data, f, indent=4)` overwrites the file at
`file` with the JSON serialization of the inventory (insertion order kept).
I/O failure (`IOError`) lies outside every claim and is not modelled, so the
write succeeds and no diagnostic is emitted. -/
def save_data (stock_data : Inventory) (file : String) (fs : FS) : FS :=
  fun p => if p = file then Option.some (.json (pyDictOfInv stock_data)) else fs p

/-- The Inventory data-model predicate, from the spec ("top-level keys are
item names (strings), values are integers ≥ 1"): the value is a dict whose
every value is an integer ≥ 1. Used to compare what `load_data` actually
returns against the model. -/
def isModelInventory : PyVal → Prop
  | .dict ps => ∀ p ∈ ps, ∃ n : Int, p.2 = .int n ∧ 1 ≤ n
  | _ => False

/-- The data-model invariant on an in-memory inventory: every stored
quantity is strictly positive. -/
def allPositive (inv : Inventory) : Prop :=
  ∀ p ∈ inv, 0 < p.2

instance (inv : Inventory) : Decidable (allPositive inv) :=
  inferInstanceAs (Decidable (∀ p ∈ inv, 0 < p.2))

/-- Whether a Python value is a dict (a mapping). -/
def PyVal.isDict : PyVal → Bool
  | .dict _ => true
  | _ => false

/-! ## Lemmas about the dict primitives -/

theorem dictFind?_dictSet_self (d : Inventory) (k : String) (v : Int) :
    dictFind? (dictSet d k v) k = Option.some v := by
  induction d with
  | nil => simp [dictSet, dictFind?]
  | cons p t ih =>
      by_cases h : p.1 = k
      · simp [dictSet, dictFind?, h]
      · simp [dictSet, dictFind?, h, ih]

theorem dictFind?_dictSet_ne (d : Inventory) (k : String) (v : Int)
    (k' : String) (h : k' ≠ k) :
    dictFind? (dictSet d k v) k' = dictFind? d k' := by
  have hsym : ¬ (k = k') := fun hk => h hk.symm
  induction d with
  | nil => simp [dictSet, dictFind?, hsym]
  | cons p t ih =>
      by_cases hp : p.1 = k
      · simp [dictSet, dictFind?, hp, hsym]
      · simp [dictSet, dictFind?, hp, ih, h]

theorem dictKeys_dictErase_not_mem (d : Inventory) (k : String) :
    k ∉ dictKeys (dictErase d k) := by
  intro hmem
  simp only [dictKeys, dictErase, List.mem_map] at hmem
  obtain ⟨p, hp, hk⟩ := hmem
  rw [List.mem_filter] at hp
  exact absurd hk (by simpa using hp.2)

theorem dictFind?_dictErase_self (d : Inventory) (k : String) :
    dictFind? (dictErase d k) k = Option.none := by
  induction d with
  | nil => simp [dictErase, dictFind?]
  | cons p t ih =>
      by_cases h : p.1 = k
      · simpa [dictErase, dictFind?, h] using ih
      · simpa [dictErase, dictFind?, h] using ih

theorem dictFind?_mem (d : Inventory) (k : String) (q : Int)
    (h : dictFind? d k = Option.some q) : ∃ p ∈ d, p.2 = q := by
  induction d with
  | nil => simp [dictFind?] at h
  | cons p t ih =>
      by_cases hp : p.1 = k
      · simp [dictFind?, hp] at h
        exact ⟨p, by simp, h⟩
      · simp [dictFind?, hp] at h
        obtain ⟨p', hp', hq⟩ := ih h
        exact ⟨p', by simp [hp'], hq⟩

theorem allPositive_dictSet (d : Inventory) (k : String) (v : Int)
    (hd : allPositive d) (hv : 0 < v) : allPositive (dictSet d k v) := by
  induction d with
  | nil => intro p hp; simp [dictSet] at hp; simp [hp, hv]
  | cons q t ih =>
      intro p hp
      by_cases h : q.1 = k
      · simp [dictSet, h] at hp
        rcases hp with hp | hp
        · simp [hp, hv]
        · exact hd p (by simp [hp])
      · simp [dictSet, h] at hp
        rcases hp with hp | hp
        · exact hd p (by simp [hp])
        · exact ih (fun p' hp' => hd p' (by simp [hp'])) p hp

theorem allPositive_dictErase (d : Inventory) (k : String)
    (hd : allPositive d) : allPositive (dictErase d k) := by
  intro p hp
  rw [dictErase, List.mem_filter] at hp
  exact hd p hp.1

/-! ## Claim theorems -/

/-- C7: `check_low_items(inventory, threshold)` returns exactly the names of
the items whose stored quantity is strictly less than `threshold`, in the
mapping's iteration (insertion) order; it never fails, the empty inventory
yields the empty sequence, and over `\x7b"a":2,"b":10,"c":4\x7d` with
threshold 5 it returns exactly `["a","c"]`. -/
theorem check_low_items_spec :
    (∀ (stock : Inventory) (threshold : Int) (s : String),
        s ∈ check_low_items stock threshold ↔ ∃ q, (s, q) ∈ stock ∧ q < threshold)
    ∧ (∀ (stock : Inventory) (threshold : Int),
        check_low_items stock threshold
          = (stock.filter (fun p => p.2 < threshold)).map Prod.fst)
    ∧ (∀ threshold : Int, check_low_items [] threshold = [])
    ∧ check_low_items [("a", 2), ("b", 10), ("c", 4)] 5 = ["a", "c"] := by
  refine ⟨?_, ?_, fun _ => rfl, by decide⟩
  · intro stock threshold s
    simp only [check_low_items, List.mem_filterMap]
    constructor
    · rintro ⟨p, hp, hif⟩
      by_cases h : p.2 < threshold
      · simp only [if_pos h, Option.some.injEq] at hif
        exact ⟨p.2, by rwa [← hif], h⟩
      · simp [if_neg h] at hif
    · rintro ⟨q, hq, hlt⟩
      exact ⟨(s, q), hq, by simp [hlt]⟩
  · intro stock threshold
    induction stock with
    | nil => rfl
    | cons p t ih =>
        by_cases h : p.2 < threshold <;>
          simp [check_low_items, List.filter_cons, h] at ih ⊢ <;> exact ih

/-- Witness for C7 at the spec's concrete example. -/
theorem check_low_items_spec_witness :
    "a" ∈ check_low_items [("a", 2), ("b", 10), ("c", 4)] 5 :=
  (check_low_items_spec.1 [("a", 2), ("b", 10), ("c", 4)] 5 "a").mpr
    ⟨2, by simp, by norm_num⟩

/-- C2: for every inventory of string keys and positive integer quantities
(a dict, so keys are unique), `save_data(inv, path)` followed by
`load_data(path)` returns a mapping equal to `inv` — round-trip identity of
persistence. -/
theorem save_load_roundtrip (inv : Inventory) (path : String) (fs : FS)
    (hnodup : (dictKeys inv).Nodup) (hpos : allPositive inv) :
    (load_data path (save_data inv path fs)).1 = pyDictOfInv inv := by
  simp [load_data, save_data]

/-- Witness for C2 at a concrete inventory and path. -/
theorem save_load_roundtrip_witness :
    (load_data "inventory.json"
        (save_data [("apple", 7), ("banana", 15)] "inventory.json"
          (fun _ => Option.none))).1
      = pyDictOfInv [("apple", 7), ("banana", 15)] :=
  save_load_roundtrip [("apple", 7), ("banana", 15)] "inventory.json"
    (fun _ => Option.none) (by decide) (by decide)

/-- C6: `load_data` on a missing file returns the empty mapping with an
informational diagnostic, and on an existing file whose content is not valid
JSON returns the empty mapping with an error diagnostic; in both cases
nothing is raised and the file system (in particular the corrupted file's
content) is left unchanged. -/
theorem load_data_missing_or_invalid (fs : FS) (path : String) :
    (fs path = Option.none →
      load_data path fs
        = (.dict [],
            ["Info: '" ++ path ++ "' not found. Starting with empty inventory."],
            fs))
    ∧ (∀ raw, fs path = Option.some (.notJson raw) →
      load_data path fs
        = (.dict [],
            ["Error: Could not decode JSON from '" ++ path ++
              "'. Starting with empty inventory."],
            fs)) := by
  constructor
  · intro h
    simp [load_data, h]
  · intro raw h
    simp [load_data, h]

/-- Witness for C6: both the missing-file and the corrupt-file branch at
concrete file systems. -/
theorem load_data_missing_or_invalid_witness :
    load_data "inventory.json" (fun _ => Option.none)
      = (.dict [],
          ["Info: 'inventory.json' not found. Starting with empty inventory."],
          fun _ => Option.none)
    ∧ load_data "inventory.json" (fun _ => Option.some (.notJson "\x7boops"))
      = (.dict [],
          ["Error: Could not decode JSON from 'inventory.json'. Starting with empty inventory."],
          fun _ => Option.some (.notJson "\x7boops")) :=
  ⟨(load_data_missing_or_invalid (fun _ => Option.none) "inventory.json").1 rfl,
   (load_data_missing_or_invalid (fun _ => Option.some (.notJson "\x7boops"))
      "inventory.json").2 "\x7boops" rfl⟩

/-- C9: on a file whose content is valid JSON but not a JSON object (here a
JSON array), `load_data` returns the parsed non-mapping value as-is — neither
an inventory mapping nor the empty mapping — and emits no diagnostic: the
decode-error branch only triggers on invalid JSON, not on valid JSON of the
wrong shape. -/
theorem load_data_valid_nonobject_passthrough :
    (load_data "inventory.json"
        (fun p => if p = "inventory.json"
          then Option.some (.json (.list [])) else Option.none)).1
      = .list []
    ∧ ((load_data "inventory.json"
        (fun p => if p = "inventory.json"
          then Option.some (.json (.list [])) else Option.none)).1).isDict = false
    ∧ (load_data "inventory.json"
        (fun p => if p = "inventory.json"
          then Option.some (.json (.list [])) else Option.none)).2.1 = [] :=
  ⟨rfl, rfl, rfl⟩

/-! ## Helper lemmas about validation and the valid branches -/

theorem validItem_str (s : String) (hs : s ≠ "") : validItem (.str s) = true := by
  simp [validItem, hs]

theorem validQty_pos (qty : PyVal) (h : validQty qty = true) : 0 < qty.intVal := by
  simp [validQty] at h
  exact h.2

theorem add_item_valid_eq (stock : Inventory) (s : String) (hs : s ≠ "")
    (qty : PyVal) (hq : validQty qty = true)
    (logs : Option (List String)) (now : String) :
    add_item stock (.str s) qty logs now
      = ⟨dictSet stock s (dictGetD stock s + qty.intVal),
         logs.map (fun l => l ++ [now ++ ": Added " ++ qty.pyStr ++ " of " ++ s]),
         []⟩ := by
  simp [add_item, validItem_str s hs, hq]

theorem remove_item_valid_eq (stock : Inventory) (s : String) (hs : s ≠ "")
    (qty : PyVal) (hq : validQty qty = true) :
    remove_item stock (.str s) qty
      = match dictFind? stock s with
        | Option.none => (stock, [])
        | Option.some q =>
            if q - qty.intVal ≤ 0 then (dictErase stock s, [])
            else (dictSet stock s (q - qty.intVal), []) := by
  simp [remove_item, validItem_str s hs, hq]

theorem dictGetD_nonneg_of_allPositive (d : Inventory) (k : String)
    (h : allPositive d) : 0 ≤ dictGetD d k := by
  unfold dictGetD
  rcases hf : dictFind? d k with _ | q
  · simp
  · obtain ⟨p, hp, hq⟩ := dictFind?_mem d k q hf
    have := h p hp
    simp
    omega

/-- C3: for every inventory, non-empty item name and positive integer
quantity, `add_item` sets the item's stored quantity to the previous quantity
(0 if absent) plus `qty`, leaves every other key unchanged, appends exactly
one entry `"<timestamp>: Added <qty> of <item>"` to a supplied log collector,
emits no diagnostic, and two successive valid calls with the same item
accumulate their quantities. -/
theorem add_item_valid_spec (stock : Inventory) (s : String) (hs : s ≠ "")
    (n m : Int) (hn : 0 < n) (hm : 0 < m)
    (logs : List String) (now now2 : String) :
    get_qty (add_item stock (.str s) (.int n) (Option.some logs) now).stock s
      = get_qty stock s + n
    ∧ (∀ k, k ≠ s →
        dictFind? (add_item stock (.str s) (.int n) (Option.some logs) now).stock k
          = dictFind? stock k)
    ∧ (add_item stock (.str s) (.int n) (Option.some logs) now).logs
        = Option.some (logs ++ [now ++ ": Added " ++ toString n ++ " of " ++ s])
    ∧ (add_item stock (.str s) (.int n) (Option.some logs) now).stderr = []
    ∧ get_qty (add_item
          (add_item stock (.str s) (.int n) (Option.some logs) now).stock
          (.str s) (.int m)
          (add_item stock (.str s) (.int n) (Option.some logs) now).logs
          now2).stock s
        = get_qty stock s + n + m := by
  have hqn : validQty (.int n) = true := by
    simp [validQty, PyVal.isinstanceInt, PyVal.intVal, hn]
  have hqm : validQty (.int m) = true := by
    simp [validQty, PyVal.isinstanceInt, PyVal.intVal, hm]
  have he := add_item_valid_eq stock s hs (.int n) hqn (Option.some logs) now
  have hget : get_qty (add_item stock (.str s) (.int n) (Option.some logs) now).stock s
      = get_qty stock s + n := by
    rw [he]
    simp [get_qty, dictGetD, dictFind?_dictSet_self, PyVal.intVal]
  refine ⟨hget, ?_, ?_, ?_, ?_⟩
  · intro k hk
    rw [he]
    exact dictFind?_dictSet_ne stock s _ k hk
  · rw [he]
    rfl
  · rw [he]
  · rw [add_item_valid_eq _ s hs (.int m) hqm _ now2]
    simp only [get_qty, dictGetD, dictFind?_dictSet_self, Option.getD_some, PyVal.intVal]
    have h2 : (dictFind? (add_item stock (.str s) (.int n)
          (Option.some logs) now).stock s).getD 0
        = (dictFind? stock s).getD 0 + n := hget
    rw [h2]

/-- Witness for C3: two successive additions of 3 and 2 of `"x"` to the empty
inventory leave `get_qty` at 5. -/
theorem add_item_valid_spec_witness :
    get_qty (add_item
        (add_item [] (.str "x") (.int 3) (Option.some []) "t1").stock
        (.str "x") (.int 2)
        (add_item [] (.str "x") (.int 3) (Option.some []) "t1").logs
        "t2").stock "x" = 5 := by
  rw [(add_item_valid_spec [] "x" (by decide) 3 2 (by decide) (by decide)
        [] "t1" "t2").2.2.2.2]
  decide

/-- C4: for every inventory, non-empty item name and positive integer
quantity: if the item is absent, `remove_item` is a no-op that emits nothing
and raises nothing; if the item is present with stored quantity `q`, the call
stores `q - qty` when that is positive and removes the key entirely when it
is zero or below, after which `get_qty` reports 0. -/
theorem remove_item_valid_spec (stock : Inventory) (s : String) (hs : s ≠ "")
    (n : Int) (hn : 0 < n) :
    (dictFind? stock s = Option.none →
      remove_item stock (.str s) (.int n) = (stock, []))
    ∧ (∀ q, dictFind? stock s = Option.some q →
        (0 < q - n →
          dictFind? (remove_item stock (.str s) (.int n)).1 s = Option.some (q - n))
        ∧ (q - n ≤ 0 →
          s ∉ dictKeys (remove_item stock (.str s) (.int n)).1
          ∧ get_qty (remove_item stock (.str s) (.int n)).1 s = 0)
        ∧ (remove_item stock (.str s) (.int n)).2 = []) := by
  have hq : validQty (.int n) = true := by
    simp [validQty, PyVal.isinstanceInt, PyVal.intVal, hn]
  have he := remove_item_valid_eq stock s hs (.int n) hq
  constructor
  · intro h
    rw [he, h]
  · intro q h
    rw [he, h]
    simp only [PyVal.intVal]
    refine ⟨?_, ?_, ?_⟩
    · intro hpos
      rw [if_neg (by omega)]
      simp [dictFind?_dictSet_self]
    · intro hle
      rw [if_pos hle]
      exact ⟨dictKeys_dictErase_not_mem stock s,
        by simp [get_qty, dictGetD, dictFind?_dictErase_self]⟩
    · by_cases hle : q - n ≤ 0
      · rw [if_pos hle]
      · rw [if_neg hle]

/-- Witness for C4: removing 5 of `"x"` from a stock of 3 deletes the entry
(`get_qty` reports 0), and removing from an inventory without the item is a
silent no-op. -/
theorem remove_item_valid_spec_witness :
    ("x" ∉ dictKeys (remove_item [("x", 3)] (.str "x") (.int 5)).1
      ∧ get_qty (remove_item [("x", 3)] (.str "x") (.int 5)).1 "x" = 0)
    ∧ remove_item [] (.str "ghost") (.int 1) = ([], []) :=
  ⟨((remove_item_valid_spec [("x", 3)] "x" (by decide) 5 (by decide)).2
      3 rfl).2.1 (by decide),
   (remove_item_valid_spec [] "ghost" (by decide) 1 (by decide)).1 rfl⟩

/-- C5: for every inventory and every invalid input — an item that fails the
non-empty-string check, or a qty that fails the positive-integer check — both
`add_item` and `remove_item` leave the inventory and any supplied log
collector exactly as they were, emit exactly one diagnostic naming the
violated constraint (item checked first), and do not raise. -/
theorem invalid_input_rejected (stock : Inventory) (item qty : PyVal)
    (logs : Option (List String)) (now : String)
    (h : validItem item = false ∨ validQty qty = false) :
    add_item stock item qty logs now
      = ⟨stock, logs,
          [if validItem item = false then itemErrMsg item else qtyErrMsg item qty]⟩
    ∧ remove_item stock item qty
      = (stock,
          [if validItem item = false then itemErrMsg item else qtyErrMsg item qty]) := by
  by_cases hi : validItem item = false
  · constructor
    · simp [add_item, hi]
    · simp [remove_item, hi]
  · have hi' : validItem item = true := by
      revert hi
      cases validItem item <;> simp
    have hq : validQty qty = false := by
      rcases h with h | h
      · exact absurd h hi
      · exact h
    constructor
    · simp [add_item, hi', hq, hi]
    · simp [remove_item, hi', hq, hi]

/-- Witness for C5: the spec's example `add_item(inv, "x", -2)` and the
matching `remove_item` call leave `\x7b"x": 3\x7d` and the log untouched and
emit only the invalid-quantity diagnostic. -/
theorem invalid_input_rejected_witness :
    add_item [("x", 3)] (.str "x") (.int (-2)) (Option.some []) "t"
      = ⟨[("x", 3)], Option.some [],
          [if validItem (.str "x") = false then itemErrMsg (.str "x")
           else qtyErrMsg (.str "x") (.int (-2))]⟩
    ∧ remove_item [("x", 3)] (.str "x") (.int (-2))
      = ([("x", 3)],
          [if validItem (.str "x") = false then itemErrMsg (.str "x")
           else qtyErrMsg (.str "x") (.int (-2))]) :=
  invalid_input_rejected [("x", 3)] (.str "x") (.int (-2)) (Option.some []) "t"
    (Or.inr rfl)

/-- C10: the quantity validation of `add_item`/`remove_item` accepts the
Boolean `True` because Python's `bool` is a subclass of `int`:
`add_item(inventory, item, True)` is not rejected — it increases the stored
quantity by 1 and emits no diagnostic, and `remove_item` with qty `True`
likewise emits no diagnostic. -/
theorem bool_qty_accepted (stock : Inventory) (s : String) (hs : s ≠ "")
    (logs : List String) (now : String) :
    validQty (.bool true) = true
    ∧ get_qty (add_item stock (.str s) (.bool true) (Option.some logs) now).stock s
        = get_qty stock s + 1
    ∧ (add_item stock (.str s) (.bool true) (Option.some logs) now).stderr = []
    ∧ (remove_item stock (.str s) (.bool true)).2 = [] := by
  have hq : validQty (.bool true) = true := rfl
  have he := add_item_valid_eq stock s hs (.bool true) hq (Option.some logs) now
  refine ⟨hq, ?_, ?_, ?_⟩
  · rw [he]
    simp [get_qty, dictGetD, dictFind?_dictSet_self, PyVal.intVal]
  · rw [he]
  · rw [remove_item_valid_eq stock s hs (.bool true) hq]
    rcases hf : dictFind? stock s with _ | q
    · rfl
    · by_cases hle : q - (PyVal.bool true).intVal ≤ 0
      · simp [hle]
      · simp [hle]

/-- Witness for C10: adding `True` of `"x"` to a stock of 3 yields 4. -/
theorem bool_qty_accepted_witness :
    get_qty (add_item [("x", 3)] (.str "x") (.bool true)
        (Option.some []) "t").stock "x" = 4 := by
  rw [(bool_qty_accepted [("x", 3)] "x" (by decide) [] "t").2.1]
  decide

/-- C1: on every inventory whose stored quantities are all strictly positive,
any call to `add_item` or `remove_item` — with any arguments, valid or not —
leaves a mapping whose stored quantities are still all strictly positive:
an item whose quantity would reach zero or below is removed entirely, so no
zero or negative entries ever persist. -/
theorem positive_invariant_preserved (stock : Inventory) (hpos : allPositive stock)
    (item qty : PyVal) (logs : Option (List String)) (now : String) :
    allPositive (add_item stock item qty logs now).stock
    ∧ allPositive (remove_item stock item qty).1 := by
  by_cases hi : validItem item = true
  · obtain ⟨s, rfl, hs⟩ : ∃ s, item = .str s ∧ s ≠ "" := by
      cases item with
      | str s =>
          refine ⟨s, rfl, ?_⟩
          simp [validItem] at hi
          exact hi
      | _ => simp [validItem] at hi
    by_cases hq : validQty qty = true
    · have hv := validQty_pos qty hq
      constructor
      · rw [add_item_valid_eq stock s hs qty hq logs now]
        exact allPositive_dictSet _ _ _ hpos
          (by have := dictGetD_nonneg_of_allPositive stock s hpos; omega)
      · rw [remove_item_valid_eq stock s hs qty hq]
        rcases hf : dictFind? stock s with _ | q
        · exact hpos
        · show allPositive (if q - qty.intVal ≤ 0 then (dictErase stock s, [])
            else (dictSet stock s (q - qty.intVal), [])).1
          by_cases hle : q - qty.intVal ≤ 0
          · rw [if_pos hle]
            exact allPositive_dictErase stock s hpos
          · rw [if_neg hle]
            exact allPositive_dictSet _ _ _ hpos (by omega)
    · have hq' : validQty qty = false := by
        revert hq
        cases validQty qty <;> simp
      constructor
      · rw [((invalid_input_rejected stock (.str s) qty logs now) (Or.inr hq')).1]
        exact hpos
      · rw [((invalid_input_rejected stock (.str s) qty logs now) (Or.inr hq')).2]
        exact hpos
  · have hi' : validItem item = false := by
      revert hi
      cases validItem item <;> simp
    constructor
    · rw [((invalid_input_rejected stock item qty logs now) (Or.inl hi')).1]
      exact hpos
    · rw [((invalid_input_rejected stock item qty logs now) (Or.inl hi')).2]
      exact hpos

/-- Witness for C1: both operations on the all-positive inventory
`\x7b"x": 1\x7d` leave an all-positive mapping. -/
theorem positive_invariant_preserved_witness :
    allPositive (add_item [("x", 1)] (.str "x") (.int 1) Option.none "t").stock
    ∧ allPositive (remove_item [("x", 1)] (.str "x") (.int 1)).1 :=
  positive_invariant_preserved [("x", 1)] (by decide) (.str "x") (.int 1)
    Option.none "t"

/-- Counterexample to C8: a successfully parsed file containing the JSON
object `\x7b"a": 0\x7d` makes `load_data` return a mapping with the value 0,
which violates the Inventory data model's "values are integers ≥ 1" — load
performs no validation. -/
theorem load_data_model_counterexample :
    (load_data "inventory.json"
        (fun p => if p = "inventory.json"
          then Option.some (.json (.dict [("a", .int 0)])) else Option.none)).1
      = .dict [("a", .int 0)]
    ∧ ¬ isModelInventory
        (load_data "inventory.json"
          (fun p => if p = "inventory.json"
            then Option.some (.json (.dict [("a", .int 0)])) else Option.none)).1 := by
  refine ⟨rfl, ?_⟩
  show ¬ isModelInventory (.dict [("a", .int 0)])
  intro h
  simp only [isModelInventory] at h
  obtain ⟨n, hn, h1⟩ := h ("a", .int 0) (by simp)
  cases hn
  exact absurd h1 (by norm_num)

/-- C8 as amended: every value `load_data` returns from a successfully parsed
file is exactly the parsed JSON value — a direct unvalidated deserialization —
so the returned mapping satisfies the Inventory data model (string keys,
integer values ≥ 1) precisely when the file's content already does. -/
theorem load_data_parsed_passthrough (fs : FS) (path : String) (v : PyVal)
    (h : fs path = Option.some (.json v)) :
    (load_data path fs).1 = v
    ∧ ((load_data path fs).1 = v → isModelInventory v
        → isModelInventory (load_data path fs).1) := by
  have h1 : (load_data path fs).1 = v := by
    simp [load_data, h]
  exact ⟨h1, fun _ hm => h1 ▸ hm⟩

/-- Witness for the amended C8 at a concrete model-conforming file. -/
theorem load_data_parsed_passthrough_witness :
    (load_data "inventory.json"
        (fun p => if p = "inventory.json"
          then Option.some (.json (.dict [("b", .int 2)])) else Option.none)).1
      = .dict [("b", .int 2)] :=
  (load_data_parsed_passthrough
    (fun p => if p = "inventory.json"
      then Option.some (.json (.dict [("b", .int 2)])) else Option.none)
    "inventory.json" (.dict [("b", .int 2)]) rfl).1
